import Mathlib

/-!
Verification of the cached TeX-checker utilities (`src/util.rs`).

The embedding models:
* `TexResult` — the classification taxonomy returned by the checker;
* `CachedTexChecker` — path, `max_size`, and the cache.  The Rust cache is a
  `HashMap<String, TexResult>`; we model it as an association list with at
  most one entry per key, whose list order stands for the map's enumeration
  order (the order `retain` visits entries in).
* `CachedTexChecker.check` — the sole query operation.  The external process
  `Command::new(path).arg(source).output()` is modelled by an oracle
  `run : String → String → Option (List Nat)` mapping (path, source) to the
  stdout byte sequence, with `none` standing for a launch failure
  (the `expect("Failed to launch texvccheck!")` panic).  A Rust panic is
  modelled as an `Except.error`; the returned state is the cache state at the
  moment of return or panic.
* `String::from_utf8` — modelled by an executable UTF-8 decoder over byte
  lists, rejecting exactly the byte sequences Rust rejects (overlong forms,
  surrogates, out-of-range code points, truncated sequences).
* `find_arg` and the fragment of `mediawiki_parser::Element` it inspects.
-/

/-- Result of checking a formula (`enum TexResult` in `util.rs`).
`Ok` is the spec's `Valid`. -/
inductive TexResult where
  | Ok (text : String)
  | UnknownFunction (text : String)
  | LexingError
  | SyntaxError
  | UnknownError
deriving DecidableEq

/-- The two panics `check` can raise: `expect("Failed to launch texvccheck!")`
and `expect("Corrupted texvccheck output!")`. -/
inductive CheckFatal where
  | launchFailure
  | corruptedOutput
deriving DecidableEq

deriving instance DecidableEq for Except

/-- UTF-8 decoding of a byte list, following the validity rules of Rust's
`String::from_utf8`: strict ranges for continuation bytes, no overlong
encodings, no surrogates, nothing above `U+10FFFF`.  Returns `none` exactly
when Rust's `from_utf8` returns `Err`. -/
def utf8Decode : List Nat → Option (List Char)
  | [] => some []
  | b :: bs =>
    if b < 0x80 then
      (utf8Decode bs).map (fun cs => Char.ofNat b :: cs)
    else if 0xC2 ≤ b ∧ b ≤ 0xDF then
      match bs with
      | b1 :: bs1 =>
        if 0x80 ≤ b1 ∧ b1 ≤ 0xBF then
          (utf8Decode bs1).map (fun cs =>
            Char.ofNat ((b - 0xC0) * 64 + (b1 - 0x80)) :: cs)
        else none
      | [] => none
    else if 0xE0 ≤ b ∧ b ≤ 0xEF then
      match bs with
      | b1 :: b2 :: bs2 =>
        if ((if b = 0xE0 then 0xA0 else 0x80) ≤ b1 ∧
             b1 ≤ (if b = 0xED then 0x9F else 0xBF)) ∧
           (0x80 ≤ b2 ∧ b2 ≤ 0xBF) then
          (utf8Decode bs2).map (fun cs =>
            Char.ofNat ((b - 0xE0) * 4096 + (b1 - 0x80) * 64 + (b2 - 0x80)) :: cs)
        else none
      | _ => none
    else if 0xF0 ≤ b ∧ b ≤ 0xF4 then
      match bs with
      | b1 :: b2 :: b3 :: bs3 =>
        if ((if b = 0xF0 then 0x90 else 0x80) ≤ b1 ∧
             b1 ≤ (if b = 0xF4 then 0x8F else 0xBF)) ∧
           (0x80 ≤ b2 ∧ b2 ≤ 0xBF) ∧ (0x80 ≤ b3 ∧ b3 ≤ 0xBF) then
          (utf8Decode bs3).map (fun cs =>
            Char.ofNat ((b - 0xF0) * 262144 + (b1 - 0x80) * 4096 +
              (b2 - 0x80) * 64 + (b3 - 0x80)) :: cs)
        else none
      | _ => none
    else none

/-- Model of `String::from_utf8` on a byte list. -/
def fromUtf8 (bs : List Nat) : Option String :=
  (utf8Decode bs).map (fun cs => ⟨cs⟩)

/-- Insertion, `HashMap::insert`: replace the value if the key is present, otherwise add
a new entry (placed at the end of the enumeration in this model). -/
def cacheInsert (cache : List (String × TexResult)) (k : String) (v : TexResult) :
    List (String × TexResult) :=
  if cache.any (fun p => p.1 = k) then
    cache.map (fun p => if p.1 = k then (k, v) else p)
  else cache ++ [(k, v)]

/-- The body of the `cache.retain` closure: `count` starts at 0, is
incremented for each visited entry, and the entry is kept iff
`count % 10 != 1` after the increment. -/
def cacheRetainFrom (count : Nat) : List (String × TexResult) → List (String × TexResult)
  | [] => []
  | x :: xs =>
    if (count + 1) % 10 ≠ 1 then x :: cacheRetainFrom (count + 1) xs
    else cacheRetainFrom (count + 1) xs

/-- The eviction pass `cache.retain(|_, _| { count += 1; count % 10 != 1 })`:
drops every entry whose 1-based enumeration position is ≡ 1 (mod 10). -/
def cacheRetain (cache : List (String × TexResult)) : List (String × TexResult) :=
  cacheRetainFrom 0 cache

/-- Checks if a string is a valid LaTeX formula, caching past inputs
(`struct CachedTexChecker`). -/
structure CachedTexChecker where
  texvccheck_path : String
  max_size : Nat
  cache : List (String × TexResult)
deriving DecidableEq

/-- Constructor `CachedTexChecker::new(path, size)`: the cache starts empty
(`with_capacity` only reserves space). -/
def CachedTexChecker.new (path : String) (size : Nat) : CachedTexChecker :=
  { texvccheck_path := path, max_size := size, cache := [] }

/-- Setter `CachedTexChecker::set_path`. -/
def CachedTexChecker.set_path (self : CachedTexChecker) (path : String) :
    CachedTexChecker :=
  { self with texvccheck_path := path }

/-- Getter `CachedTexChecker::get_path`. -/
def CachedTexChecker.get_path (self : CachedTexChecker) : String :=
  self.texvccheck_path

/-- The `match first { ... }` classifying stdout: `first` is the first stdout
byte (`None` when stdout is empty), `text` the UTF-8 decoding of the rest.
Byte values: `'+'` = 43, `'F'` = 70, `'S'` = 83, `'E'` = 69. -/
def classifyOutput (first : Option Nat) (text : String) : TexResult :=
  match first with
  | some c =>
    if c = 43 then TexResult.Ok text
    else if c = 70 then TexResult.UnknownFunction text
    else if c = 83 then TexResult.SyntaxError
    else if c = 69 then TexResult.LexingError
    else TexResult.UnknownError
  | none => TexResult.UnknownError

/-- Model of `<CachedTexChecker as TexChecker>::check`.  `run path source` is the
stdout of the external process (`none` = launch failure).  Returns the
result (or the panic) together with the cache state at return time. -/
def CachedTexChecker.check (self : CachedTexChecker)
    (run : String → String → Option (List Nat)) (source : String) :
    Except CheckFatal TexResult × CachedTexChecker :=
  match List.lookup source self.cache with
  | some result => (Except.ok result, self)
  | none =>
    match run self.texvccheck_path source with
    | none => (Except.error CheckFatal.launchFailure, self)
    | some stdout =>
      let first := stdout.head?
      match fromUtf8 stdout.tail with
      | none => (Except.error CheckFatal.corruptedOutput, self)
      | some text =>
        let result := classifyOutput first text
        let cache1 :=
          if self.cache.length > self.max_size then cacheRetain self.cache
          else self.cache
        (Except.ok result, { self with cache := cacheInsert cache1 source result })

/-- The fragment of `mediawiki_parser::Element` that `find_arg` inspects:
only `TemplateArgument` is distinguished; every other variant is opaque. -/
inductive Element where
  | Text (text : String)
  | Formatted (content : List Element)
  | Paragraph (content : List Element)
  | TemplateArgument (name : String) (value : List Element)
  | Other

/-- Returns the template argument with a matching name (lowercase) from a
list (`fn find_arg`).  `e.name.trim().to_lowercase()` is modelled by
`String.trim` and `String.toLower`. -/
def find_arg : List Element → List String → Option Element
  | [], _ => none
  | child :: rest, names =>
    match child with
    | Element.TemplateArgument name _value =>
      if names.contains (name.trim.toLower) then some child
      else find_arg rest names
    | _ => find_arg rest names

/-- The predicate `find_arg` tests on each element: it is a
`TemplateArgument` whose trimmed, lowercased name occurs in `names`. -/
def isMatchingArg (names : List String) : Element → Bool
  | Element.TemplateArgument name _value => names.contains (name.trim.toLower)
  | _ => false

/-- The cache update described by the claim that eviction runs after the
insertion: insert first, then run the eviction pass when the size after the
insertion exceeds `maxSize`.  (The code does it the other way around; this
definition exists to be compared against `check`.) -/
def insertThenEvict (cache : List (String × TexResult)) (maxSize : Nat)
    (k : String) (v : TexResult) : List (String × TexResult) :=
  let inserted := cacheInsert cache k v
  if inserted.length > maxSize then cacheRetain inserted else inserted

/-- Run a sequence of `check` calls, each with its own oracle and source
string, threading the checker state through. -/
def runChecks (self : CachedTexChecker) :
    List ((String → String → Option (List Nat)) × String) → CachedTexChecker
  | [] => self
  | (run, src) :: rest => runChecks (self.check run src).2 rest

/-! ### Helper lemmas -/

/-- On a cache hit, `check` returns the stored result and leaves the state
untouched, whatever the external oracle is. -/
theorem check_of_lookup_some (self : CachedTexChecker)
    (run : String → String → Option (List Nat)) (source : String)
    (result : TexResult)
    (hhit : List.lookup source self.cache = some result) :
    self.check run source = (Except.ok result, self) := by
  simp [CachedTexChecker.check, hhit]

/-- The miss path of `check` with a successful launch and a decodable
payload, written out explicitly. -/
theorem check_miss_eq (self : CachedTexChecker)
    (run : String → String → Option (List Nat)) (source : String)
    (stdout : List Nat) (text : String)
    (hmiss : List.lookup source self.cache = none)
    (hrun : run self.texvccheck_path source = some stdout)
    (hdec : fromUtf8 stdout.tail = some text) :
    self.check run source =
      (Except.ok (classifyOutput stdout.head? text),
       { self with
          cache := cacheInsert
            (if self.cache.length > self.max_size then cacheRetain self.cache
              else self.cache)
            source (classifyOutput stdout.head? text) }) := by
  simp [CachedTexChecker.check, hmiss, hrun, hdec]

/-- Looking up the freshly updated key in `cacheInsert`'s map branch. -/
theorem lookup_map_update (c : List (String × TexResult)) (k : String)
    (v : TexResult) (hany : c.any (fun p => p.1 = k) = true) :
    List.lookup k (c.map fun p => if p.1 = k then (k, v) else p) = some v := by
  induction c with
  | nil => simp at hany
  | cons p c ih =>
    by_cases hp : p.1 = k
    · rw [List.map_cons, if_pos hp]
      simp [List.lookup]
    · have hc : c.any (fun p => p.1 = k) = true := by
        simp only [List.any_cons, Bool.or_eq_true, decide_eq_true_eq] at hany
        rcases hany with h | h
        · exact absurd h hp
        · exact h
      have hk : (k == p.1) = false := by
        simp only [beq_eq_false_iff_ne, ne_eq]
        exact fun h => hp h.symm
      rw [List.map_cons, if_neg hp]
      rw [List.lookup, hk]
      exact ih hc

/-- Looking up the appended key when it was absent from the front part. -/
theorem lookup_append_single (c : List (String × TexResult)) (k : String)
    (v : TexResult) (hnone : c.any (fun p => p.1 = k) = false) :
    List.lookup k (c ++ [(k, v)]) = some v := by
  induction c with
  | nil => simp [List.lookup]
  | cons p c ih =>
    simp only [List.any_cons, Bool.or_eq_false_iff, decide_eq_false_iff_not] at hnone
    obtain ⟨hp, hc⟩ := hnone
    have hk : (k == p.1) = false := by
      simp only [beq_eq_false_iff_ne, ne_eq]
      exact fun h => hp h.symm
    rw [List.cons_append, List.lookup, hk]
    exact ih hc

/-- After `cacheInsert c k v`, looking up `k` yields `v`. -/
theorem lookup_cacheInsert (c : List (String × TexResult)) (k : String)
    (v : TexResult) : List.lookup k (cacheInsert c k v) = some v := by
  unfold cacheInsert
  cases hany : c.any (fun p => p.1 = k) with
  | true =>
    rw [if_pos rfl]
    exact lookup_map_update c k v hany
  | false =>
    rw [if_neg Bool.false_ne_true]
    exact lookup_append_single c k v hany

/-- Every successful `check` call leaves its own source/result pair in the
cache of the returned state. -/
theorem check_ok_lookup (self : CachedTexChecker)
    (run : String → String → Option (List Nat)) (source : String)
    (r : TexResult) (s1 : CachedTexChecker)
    (h : self.check run source = (Except.ok r, s1)) :
    List.lookup source s1.cache = some r := by
  cases hl : List.lookup source self.cache with
  | some r0 =>
    rw [check_of_lookup_some self run source r0 hl] at h
    obtain ⟨h1, h2⟩ := Prod.mk.injEq .. ▸ h
    cases h1
    cases h2
    exact hl
  | none =>
    cases hr : run self.texvccheck_path source with
    | none =>
      simp only [CachedTexChecker.check, hl, hr] at h
      simp at h
    | some stdout =>
      cases hd : fromUtf8 stdout.tail with
      | none =>
        simp only [CachedTexChecker.check, hl, hr, hd] at h
        simp at h
      | some text =>
        rw [check_miss_eq self run source stdout text hl hr hd] at h
        obtain ⟨h1, h2⟩ := Prod.mk.injEq .. ▸ h
        cases h2
        rw [show r = classifyOutput stdout.head? text from (Except.ok.injEq .. ▸ h1).symm]
        exact lookup_cacheInsert _ source _

/-- The eviction pass keeps exactly the entries whose 1-based position
(counted from `n + 1`) is not ≡ 1 (mod 10). -/
theorem cacheRetainFrom_eq (n : Nat) (l : List (String × TexResult)) :
    cacheRetainFrom n l =
      ((l.enumFrom n).filter (fun p => (p.1 + 1) % 10 ≠ 1)).map Prod.snd := by
  induction l generalizing n with
  | nil => simp [cacheRetainFrom]
  | cons x xs ih =>
    by_cases h : (n + 1) % 10 ≠ 1 <;>
      simp [cacheRetainFrom, List.enumFrom, h, ih]

/-- The eviction pass never lengthens the cache. -/
theorem cacheRetainFrom_length_le (n : Nat) (l : List (String × TexResult)) :
    (cacheRetainFrom n l).length ≤ l.length := by
  induction l generalizing n with
  | nil => simp [cacheRetainFrom]
  | cons x xs ih =>
    rw [cacheRetainFrom]
    split
    · simpa using ih (n + 1)
    · exact Nat.le_succ_of_le (ih (n + 1))

/-- On a nonempty cache the eviction pass removes at least one entry
(the one in position 1). -/
theorem cacheRetain_length_lt (l : List (String × TexResult)) (h : l ≠ []) :
    (cacheRetain l).length < l.length := by
  cases l with
  | nil => exact absurd rfl h
  | cons x xs =>
    rw [cacheRetain, cacheRetainFrom, if_neg (by decide)]
    exact Nat.lt_succ_of_le (cacheRetainFrom_length_le 1 xs)

/-- Insertion grows the cache by at most one entry. -/
theorem cacheInsert_length_le (c : List (String × TexResult)) (k : String)
    (v : TexResult) : (cacheInsert c k v).length ≤ c.length + 1 := by
  unfold cacheInsert
  split
  · simp
  · simp

/-- A `check` call never changes `max_size`. -/
theorem check_max_size_eq (self : CachedTexChecker)
    (run : String → String → Option (List Nat)) (source : String) :
    ((self.check run source).2).max_size = self.max_size := by
  cases hl : List.lookup source self.cache with
  | some r => simp [CachedTexChecker.check, hl]
  | none =>
    cases hr : run self.texvccheck_path source with
    | none => simp [CachedTexChecker.check, hl, hr]
    | some stdout =>
      cases hd : fromUtf8 stdout.tail with
      | none => simp [CachedTexChecker.check, hl, hr, hd]
      | some text => simp [CachedTexChecker.check, hl, hr, hd]

/-- One `check` call preserves the soft size bound `max_size + 1`. -/
theorem check_cache_length_le (self : CachedTexChecker)
    (run : String → String → Option (List Nat)) (source : String)
    (h : self.cache.length ≤ self.max_size + 1) :
    ((self.check run source).2).cache.length ≤ self.max_size + 1 := by
  cases hl : List.lookup source self.cache with
  | some r => simpa [CachedTexChecker.check, hl] using h
  | none =>
    cases hr : run self.texvccheck_path source with
    | none => simpa [CachedTexChecker.check, hl, hr] using h
    | some stdout =>
      cases hd : fromUtf8 stdout.tail with
      | none => simpa [CachedTexChecker.check, hl, hr, hd] using h
      | some text =>
        rw [check_miss_eq self run source stdout text hl hr hd]
        refine le_trans (cacheInsert_length_le _ source _) ?_
        by_cases hlen : self.cache.length > self.max_size
        · rw [if_pos hlen]
          have hne : self.cache ≠ [] := by
            intro hnil
            rw [hnil] at hlen
            simp at hlen
          have hlt := cacheRetain_length_lt self.cache hne
          omega
        · rw [if_neg hlen]
          omega

/-- A `runChecks` sequence never changes `max_size`. -/
theorem runChecks_max_size (calls : List ((String → String → Option (List Nat)) × String))
    (self : CachedTexChecker) :
    (runChecks self calls).max_size = self.max_size := by
  induction calls generalizing self with
  | nil => rfl
  | cons c rest ih =>
    obtain ⟨run, src⟩ := c
    rw [runChecks, ih, check_max_size_eq]

/-- The soft size bound is an invariant of `runChecks`. -/
theorem runChecks_cache_length_le
    (calls : List ((String → String → Option (List Nat)) × String))
    (self : CachedTexChecker) (h : self.cache.length ≤ self.max_size + 1) :
    (runChecks self calls).cache.length ≤ self.max_size + 1 := by
  induction calls generalizing self with
  | nil => simpa [runChecks] using h
  | cons c rest ih =>
    obtain ⟨run, src⟩ := c
    rw [runChecks]
    have h1 := check_cache_length_le self run src h
    rw [← check_max_size_eq self run src] at h1
    simpa [check_max_size_eq] using ih _ h1

/-- Lowercasing a character never produces an ASCII uppercase letter. -/
theorem toLower_isUpper_false (c : Char) : c.toLower.isUpper = false := by
  unfold Char.toLower
  by_cases h : c.toNat ≥ 65 ∧ c.toNat ≤ 90
  · rw [if_pos h]
    obtain ⟨h1, h2⟩ := h
    generalize c.toNat = n at h1 h2 ⊢
    interval_cases n <;> decide
  · rw [if_neg h]
    have hn : ¬ (65 ≤ c.val.toNat ∧ c.val.toNat ≤ 90) := h
    rw [Char.isUpper, Bool.and_eq_false_iff]
    rcases Nat.lt_or_ge c.val.toNat 65 with hlt | hge
    · left
      rw [decide_eq_false_iff_not]
      rw [ge_iff_le, UInt32.le_def, BitVec.le_def]
      simpa using Nat.not_le.mpr hlt
    · right
      rw [decide_eq_false_iff_not]
      rw [UInt32.le_def, BitVec.le_def]
      have h90 : 90 < c.val.toNat := by omega
      simpa using Nat.not_le.mpr h90

/-- A string containing an ASCII uppercase letter is never the output of
`String.toLower`. -/
theorem toLower_ne_of_any_isUpper (s w : String)
    (hw : w.data.any Char.isUpper = true) : s.toLower ≠ w := by
  intro heq
  have hdata : w.data = s.data.map Char.toLower := by
    rw [← heq, String.toLower, String.map_eq]
  rw [hdata, List.any_map] at hw
  simp only [List.any_eq_true, Function.comp_apply] at hw
  obtain ⟨c, _, hc⟩ := hw
  rw [toLower_isUpper_false] at hc
  exact Bool.false_ne_true hc

/-- Unfolding lemma: `find_arg` is `List.find?` of `isMatchingArg`. -/
theorem find_arg_eq_find (content : List Element) (names : List String) :
    find_arg content names = content.find? (isMatchingArg names) := by
  induction content with
  | nil => rfl
  | cons child rest ih =>
    cases child with
    | TemplateArgument name value =>
      by_cases h : name.trim.toLower ∈ names <;>
        simp [find_arg, List.find?, isMatchingArg, ih, h]
    | Text t => simp [find_arg, List.find?, isMatchingArg, ih]
    | Formatted c => simp [find_arg, List.find?, isMatchingArg, ih]
    | Paragraph c => simp [find_arg, List.find?, isMatchingArg, ih]
    | Other => simp [find_arg, List.find?, isMatchingArg, ih]

/-! ### Claims -/

/-- C1: for every source string missing from the cache, `check` classifies
the external checker's stdout by its first byte: `'+'` (43) yields `Ok`
(the spec's `Valid`) carrying the remaining bytes UTF-8 decoded, `'F'` (70)
yields `UnknownFunction` carrying the rest, `'S'` (83) yields `SyntaxError`
discarding the rest, `'E'` (69) yields `LexingError` discarding the rest,
and any other first byte or completely empty stdout yields `UnknownError`. -/
theorem check_classification_table (self : CachedTexChecker)
    (run : String → String → Option (List Nat)) (source : String)
    (stdout : List Nat) (text : String)
    (hmiss : List.lookup source self.cache = none)
    (hrun : run self.texvccheck_path source = some stdout)
    (hdec : fromUtf8 stdout.tail = some text) :
    (stdout.head? = some 43 →
      (self.check run source).1 = Except.ok (TexResult.Ok text)) ∧
    (stdout.head? = some 70 →
      (self.check run source).1 = Except.ok (TexResult.UnknownFunction text)) ∧
    (stdout.head? = some 83 →
      (self.check run source).1 = Except.ok TexResult.SyntaxError) ∧
    (stdout.head? = some 69 →
      (self.check run source).1 = Except.ok TexResult.LexingError) ∧
    (∀ b : Nat, stdout.head? = some b → b ≠ 43 → b ≠ 70 → b ≠ 83 → b ≠ 69 →
      (self.check run source).1 = Except.ok TexResult.UnknownError) ∧
    (stdout = [] →
      (self.check run source).1 = Except.ok TexResult.UnknownError) := by
  rw [check_miss_eq self run source stdout text hmiss hrun hdec]
  refine ⟨?_, ?_, ?_, ?_, ?_, ?_⟩
  · intro h
    simp [classifyOutput, h]
  · intro h
    simp [classifyOutput, h]
  · intro h
    simp [classifyOutput, h]
  · intro h
    simp [classifyOutput, h]
  · intro b hb h43 h70 h83 h69
    simp [classifyOutput, hb, h43, h70, h83, h69]
  · intro h
    subst h
    simp [classifyOutput]

theorem check_classification_table_witness :
    ((CachedTexChecker.new "texvccheck" 100).check
        (fun _ _ => some [43, 79, 75]) "1+1").1 = Except.ok (TexResult.Ok "OK") :=
  (check_classification_table (CachedTexChecker.new "texvccheck" 100)
    (fun _ _ => some [43, 79, 75]) "1+1" [43, 79, 75] "OK" rfl rfl (by decide)).1 rfl

/-- C2: for every source string present in the cache, `check` returns (a
clone of) the stored result, for any oracle whatsoever — in particular the
external process is never consulted. -/
theorem check_hit_returns_cached (self : CachedTexChecker) (source : String)
    (result : TexResult)
    (hhit : List.lookup source self.cache = some result) :
    ∀ run : String → String → Option (List Nat),
      (self.check run source).1 = Except.ok result := by
  intro run
  rw [check_of_lookup_some self run source result hhit]

theorem check_hit_returns_cached_witness :
    (((⟨"p", 10, [("x", TexResult.UnknownError)]⟩ : CachedTexChecker).check
        (fun _ _ => none) "x").1) = Except.ok TexResult.UnknownError :=
  check_hit_returns_cached
    (⟨"p", 10, [("x", TexResult.UnknownError)]⟩ : CachedTexChecker) "x"
    TexResult.UnknownError (by decide) (fun _ _ => none)

/-- C3: once a `check` call succeeds with result `r` and state `s1`, a second
call on the same source returns the same result `r` and leaves the state at
`s1`, independently of the second oracle (no re-invocation): every outcome,
`UnknownError` included, is cached by the first call and the second call is a
cache hit. -/
theorem check_idempotent (self : CachedTexChecker)
    (run : String → String → Option (List Nat)) (source : String)
    (r : TexResult) (s1 : CachedTexChecker)
    (h : self.check run source = (Except.ok r, s1)) :
    List.lookup source s1.cache = some r ∧
    ∀ run2 : String → String → Option (List Nat),
      s1.check run2 source = (Except.ok r, s1) :=
  ⟨check_ok_lookup self run source r s1 h,
   fun run2 =>
     check_of_lookup_some s1 run2 source r (check_ok_lookup self run source r s1 h)⟩

theorem check_idempotent_witness :
    ((⟨"p", 2, [("s", TexResult.UnknownError)]⟩ : CachedTexChecker).check
        (fun _ _ => none) "s") =
      (Except.ok TexResult.UnknownError,
       (⟨"p", 2, [("s", TexResult.UnknownError)]⟩ : CachedTexChecker)) :=
  (check_idempotent (CachedTexChecker.new "p" 2) (fun _ _ => some [63]) "s"
    TexResult.UnknownError
    (⟨"p", 2, [("s", TexResult.UnknownError)]⟩ : CachedTexChecker)
    (by decide)).2 (fun _ _ => none)

/-- C4 counterexample: with `max_size = 0` and an empty cache, a miss leaves
one entry in the cache (the code checks the size before inserting), while
insert-then-evict-on-overflow, as the claim states it, would have evicted the
just-inserted entry (position 1) and left the cache empty. -/
theorem check_insert_then_evict_cex :
    ((CachedTexChecker.new "p" 0).check (fun _ _ => some [43]) "s").1
        = Except.ok (TexResult.Ok "") ∧
    ((CachedTexChecker.new "p" 0).check (fun _ _ => some [43]) "s").2.cache
        ≠ insertThenEvict (CachedTexChecker.new "p" 0).cache 0 "s"
            (TexResult.Ok "") := by
  decide

/-- C4 amended: on every cache miss (with successful launch and a decodable
payload), `check` first — before inserting — tests whether the cache's size,
which does not yet include the new entry, exceeds `max_size`, and if so runs
an eviction pass removing exactly the entries whose 1-based enumeration
position is ≡ 1 (mod 10); only then does it insert `(source, result)`. -/
theorem check_evicts_before_insert (self : CachedTexChecker)
    (run : String → String → Option (List Nat)) (source : String)
    (stdout : List Nat) (text : String)
    (hmiss : List.lookup source self.cache = none)
    (hrun : run self.texvccheck_path source = some stdout)
    (hdec : fromUtf8 stdout.tail = some text) :
    (self.check run source).2.cache =
      cacheInsert
        (if self.cache.length > self.max_size then cacheRetain self.cache
          else self.cache)
        source (classifyOutput stdout.head? text) ∧
    cacheRetain self.cache =
      (self.cache.enum.filter (fun p => (p.1 + 1) % 10 ≠ 1)).map Prod.snd := by
  constructor
  · rw [check_miss_eq self run source stdout text hmiss hrun hdec]
  · rw [cacheRetain, cacheRetainFrom_eq]
    rfl

theorem check_evicts_before_insert_witness :
    ((⟨"p", 0, [("a", TexResult.UnknownError)]⟩ : CachedTexChecker).check
        (fun _ _ => some [83]) "b").2.cache = [("b", TexResult.SyntaxError)] := by
  have h := check_evicts_before_insert
    (⟨"p", 0, [("a", TexResult.UnknownError)]⟩ : CachedTexChecker)
    (fun _ _ => some [83]) "b" [83] "" (by decide) rfl (by decide)
  rw [h.1]
  decide

/-- C5: starting from a fresh checker, after any sequence of `check` calls
the number of cache entries is at most `max_size + 1` (the soft bound: at
most one pending insertion over `max_size`). -/
theorem cache_size_soft_bound (path : String) (size : Nat)
    (calls : List ((String → String → Option (List Nat)) × String)) :
    (runChecks (CachedTexChecker.new path size) calls).cache.length ≤ size + 1 :=
  runChecks_cache_length_le calls (CachedTexChecker.new path size)
    (by simp [CachedTexChecker.new])

/-- C6: on a miss, when the external process cannot be launched, `check`
aborts with the fatal `launchFailure` panic instead of returning any
`TexResult`, and the state — the cache in particular — is exactly the one it
started with: nothing is inserted and no eviction runs. -/
theorem check_launch_failure_fatal (self : CachedTexChecker)
    (run : String → String → Option (List Nat)) (source : String)
    (hmiss : List.lookup source self.cache = none)
    (hfail : run self.texvccheck_path source = none) :
    self.check run source = (Except.error CheckFatal.launchFailure, self) := by
  simp [CachedTexChecker.check, hmiss, hfail]

theorem check_launch_failure_fatal_witness :
    (CachedTexChecker.new "missing" 5).check (fun _ _ => none) "abc"
      = (Except.error CheckFatal.launchFailure, CachedTexChecker.new "missing" 5) :=
  check_launch_failure_fatal (CachedTexChecker.new "missing" 5)
    (fun _ _ => none) "abc" rfl rfl

/-- C7: on a miss, when the stdout bytes after the first byte are not valid
UTF-8, `check` aborts with the fatal `corruptedOutput` panic — it does not
downgrade to `UnknownError` — and caches nothing for that input. -/
theorem check_corrupted_output_fatal (self : CachedTexChecker)
    (run : String → String → Option (List Nat)) (source : String)
    (stdout : List Nat)
    (hmiss : List.lookup source self.cache = none)
    (hrun : run self.texvccheck_path source = some stdout)
    (hbad : fromUtf8 stdout.tail = none) :
    self.check run source = (Except.error CheckFatal.corruptedOutput, self) := by
  simp [CachedTexChecker.check, hmiss, hrun, hbad]

theorem check_corrupted_output_fatal_witness :
    (CachedTexChecker.new "p" 5).check (fun _ _ => some [43, 255]) "abc"
      = (Except.error CheckFatal.corruptedOutput, CachedTexChecker.new "p" 5) :=
  check_corrupted_output_fatal (CachedTexChecker.new "p" 5)
    (fun _ _ => some [43, 255]) "abc" [43, 255] rfl rfl (by decide)

/-- C8: `set_path` replaces the path and leaves the cache untouched; a
subsequent `check` on a previously cached source returns the cached value,
for any oracle — the (new) external process is not invoked. -/
theorem set_path_preserves_cache (self : CachedTexChecker) (path source : String)
    (result : TexResult)
    (hhit : List.lookup source self.cache = some result) :
    (self.set_path path).cache = self.cache ∧
    ∀ run : String → String → Option (List Nat),
      (self.set_path path).check run source
        = (Except.ok result, self.set_path path) :=
  ⟨rfl, fun run => check_of_lookup_some (self.set_path path) run source result hhit⟩

theorem set_path_preserves_cache_witness :
    ((⟨"old", 3, [("q", TexResult.LexingError)]⟩ : CachedTexChecker).set_path
        "new").cache
      = (⟨"old", 3, [("q", TexResult.LexingError)]⟩ : CachedTexChecker).cache ∧
    ((⟨"old", 3, [("q", TexResult.LexingError)]⟩ : CachedTexChecker).set_path
        "new").check (fun _ _ => none) "q"
      = (Except.ok TexResult.LexingError,
         (⟨"old", 3, [("q", TexResult.LexingError)]⟩ :
           CachedTexChecker).set_path "new") :=
  ⟨(set_path_preserves_cache
      (⟨"old", 3, [("q", TexResult.LexingError)]⟩ : CachedTexChecker)
      "new" "q" TexResult.LexingError (by decide)).1,
   (set_path_preserves_cache
      (⟨"old", 3, [("q", TexResult.LexingError)]⟩ : CachedTexChecker)
      "new" "q" TexResult.LexingError (by decide)).2 (fun _ _ => none)⟩

/-- C9: on a cache hit, `check` returns the state unchanged — no entry is
inserted, removed or modified, and no eviction pass runs, whatever the
oracle and even when the cache already exceeds `max_size`. -/
theorem check_hit_cache_unchanged (self : CachedTexChecker) (source : String)
    (result : TexResult)
    (hhit : List.lookup source self.cache = some result) :
    ∀ run : String → String → Option (List Nat),
      (self.check run source).2 = self := by
  intro run
  rw [check_of_lookup_some self run source result hhit]

theorem check_hit_cache_unchanged_witness :
    ((⟨"p", 0, [("a", TexResult.UnknownError), ("b", TexResult.LexingError)]⟩ :
        CachedTexChecker).check (fun _ _ => none) "a").2
      = (⟨"p", 0, [("a", TexResult.UnknownError), ("b", TexResult.LexingError)]⟩ :
        CachedTexChecker) :=
  check_hit_cache_unchanged
    (⟨"p", 0, [("a", TexResult.UnknownError), ("b", TexResult.LexingError)]⟩ :
      CachedTexChecker) "a" TexResult.UnknownError (by decide) (fun _ _ => none)

/-- C10: `find_arg` returns the first element in slice order that is a
`TemplateArgument` whose trimmed, lowercased name equals (exactly, with no
normalization of the list's entries) some entry of `names`, skipping elements
of other kinds and returning `none` when nothing matches; and an entry of
`names` containing an ASCII uppercase letter can never equal a trimmed,
lowercased name, so it never matches. -/
theorem find_arg_characterization (content : List Element) (names : List String) :
    find_arg content names = content.find? (isMatchingArg names) ∧
    ∀ w ∈ names, w.data.any Char.isUpper = true →
      ∀ name : String, name.trim.toLower ≠ w :=
  ⟨find_arg_eq_find content names,
   fun w _ hw name => toLower_ne_of_any_isUpper name.trim w hw⟩

theorem find_arg_characterization_witness :
    find_arg [Element.Text "t", Element.Other] ["foo"] = none := by
  rw [(find_arg_characterization [Element.Text "t", Element.Other] ["foo"]).1]
  rfl
